import Mathlib

/-!
Verification development for the eaip-lib text decoders.

The Python sources (eaip/hours.py, eaip/airspace/airspace.py and the
eaip/airspace/lateral and eaip/airspace/vertical modules) are shallowly
embedded here: every regular expression of the source is compiled by hand
into an equivalent total matching function over lists of characters,
following Python re semantics (ordered alternation, greedy backtracking
repetition, a dot that does not match a newline, and a dollar anchor that
accepts the end of the string or a final newline).  Python runtime errors
(TypeError, ValueError, IndexError) are modelled with an Except monad.
-/

namespace EAIP

/-- Python runtime errors that the embedded code can raise. -/
inductive PyErr where
  | typeError
  | valueError
  | indexError
deriving DecidableEq

/-- A datetime.time value: hour, minute, second, microsecond. -/
structure PyTime where
  hour : Nat
  minute : Nat
  second : Nat
  microsecond : Nat
deriving DecidableEq

/-- datetime.time.min, that is 00:00:00.000000. -/
def timeMin : PyTime := ⟨0, 0, 0, 0⟩

/-- datetime.time.max, that is 23:59:59.999999. -/
def timeMax : PyTime := ⟨23, 59, 59, 999999⟩

/-- Candidate lengths for a greedy repetition, longest first: n, n-1, ..., 1. -/
def descRun : Nat → List Nat
  | 0 => []
  | n + 1 => (n + 1) :: descRun n

/-- Python regex dot: any character except a newline. -/
def reDot (c : Char) : Bool := c ≠ '\n'

/-- Python regex dollar without MULTILINE: end of input, or just before a final newline. -/
def reDollar (r : List Char) : Prop := r = [] ∨ r = ['\n']

instance (r : List Char) : Decidable (reDollar r) := by
  unfold reDollar; infer_instance

/-- Match a literal piece of a pattern, returning the rest of the input. -/
def litP (lit : String) (r : List Char) : Option (List Char) :=
  if lit.data.isPrefixOf r then some (r.drop lit.data.length) else none

/-- Greedy dot-plus in continuation-passing style: consume at least one
non-newline character, trying the longest run first and backtracking into
the continuation. -/
def dotPlusP (r : List Char) (k : List Char → Option α) : Option α :=
  (descRun (r.takeWhile reDot).length).findSome? fun n => k (r.drop n)

/-- Greedy dot-star in continuation-passing style. -/
def dotStarP (r : List Char) (k : List Char → Option α) : Option α :=
  ((descRun (r.takeWhile reDot).length).findSome? fun n => k (r.drop n)) <|> k r

/-- Exactly n digits, captured as a string. -/
def takeDigits (n : Nat) (cs : List Char) : Option (String × List Char) :=
  let t := cs.take n
  if t.length = n ∧ t.all Char.isDigit then some (t.asString, cs.drop n) else none

/-- One character from a character class. -/
def charOf (cls : List Char) (cs : List Char) : Option (Char × List Char) :=
  match cs with
  | c :: r => if cls.contains c then some (c, r) else none
  | [] => none

/-- Greedy decimal number capture with backtracking, for the source
pattern piece (\d+(?:\.\d+)?): an integer part of at least one digit and an
optional fractional part, each tried longest first, the fractional part
preferred present. -/
def numCapP (r : List Char) (k : String → List Char → Option α) : Option α :=
  (descRun (r.takeWhile Char.isDigit).length).findSome? fun n =>
    let ds := r.take n
    let r1 := r.drop n
    (match r1 with
     | '.' :: r2 =>
         (descRun (r2.takeWhile Char.isDigit).length).findSome? fun m =>
           k (ds ++ '.' :: r2.take m).asString (r2.drop m)
     | _ => none) <|> k ds.asString r1

/-- Numeric value of a digit string, most significant digit first. -/
def digitsToNat (l : List Char) : Nat :=
  l.foldl (fun a c => a * 10 + (c.toNat - 48)) 0

/-- Conversion of a captured group to a number: every use in the source
converts a capture of a \d+ shaped group, so the conversion succeeds
exactly on non-empty digit strings. -/
def toNatDigits? (s : String) : Option Nat :=
  if s.data ≠ [] ∧ s.data.all Char.isDigit then some (digitsToNat s.data) else none

instance {ε α : Type} [DecidableEq ε] [DecidableEq α] : DecidableEq (Except ε α) := fun x y =>
  match x, y with
  | .ok a, .ok b =>
    if h : a = b then isTrue (by rw [h]) else isFalse (by intro he; cases he; exact h rfl)
  | .error a, .error b =>
    if h : a = b then isTrue (by rw [h]) else isFalse (by intro he; cases he; exact h rfl)
  | .ok _, .error _ => isFalse (by intro he; cases he)
  | .error _, .ok _ => isFalse (by intro he; cases he)

/-- Python int() on a string of digits. -/
def pyInt (s : String) : Except PyErr Int :=
  match toNatDigits? s with
  | some n => .ok (n : Int)
  | none => .error .valueError

/-! ## Vertical limits: Airspace.__vertical_matcher, Altitude, Level -/

/-- Captured groups of the Altitude pattern (\d+) FT (ALT|AGL) anchored on
both sides. -/
structure AltG where
  feetG : String
  aglG : String
deriving DecidableEq

/-- Tail of the Altitude pattern after the digit capture: the literal
" FT ", the ordered alternation ALT | AGL, and the dollar anchor. -/
def altTail (ds : String) (r : List Char) : Option AltG :=
  (litP " FT " r).bind fun r =>
    ((litP "ALT" r).bind fun r1 =>
      if reDollar r1 then some (AltG.mk ds "ALT") else none) <|>
    ((litP "AGL" r).bind fun r1 =>
      if reDollar r1 then some (AltG.mk ds "AGL") else none)

/-- The Altitude pattern of Airspace.__vertical_matcher, compiled from
r'^(\d+) FT (ALT|AGL)$': a greedy digit capture with backtracking, longest
run first, then the tail. -/
def altMatch (s : String) : Option AltG :=
  (descRun (s.data.takeWhile Char.isDigit).length).findSome? fun n =>
    altTail ((s.data.take n).asString) (s.data.drop n)

/-- Captured groups of the Level pattern: group 1 is SFC or FL, group 2 the
optional digits (None when absent, as in Python). -/
structure LevelG where
  tagG : String
  digitsG : Option String
deriving DecidableEq

/-- Tail of the Level pattern after the SFC|FL alternation: the optional
greedy digit group, then the dollar anchor. -/
def levelTail (tag : String) (r : List Char) : Option LevelG :=
  ((descRun (r.takeWhile Char.isDigit).length).findSome? fun n =>
     if reDollar (r.drop n) then some (LevelG.mk tag (some ((r.take n).asString)))
     else none) <|>
  (if reDollar r then some (LevelG.mk tag none) else none)

/-- The Level pattern of Airspace.__vertical_matcher, compiled from
r'^(?:(SFC|FL)(\d+)?)$' with the alternation tried in order SFC, FL. -/
def levelMatch (s : String) : Option LevelG :=
  ((litP "SFC" s.data).bind fun r => levelTail "SFC" r) <|>
  ((litP "FL" s.data).bind fun r => levelTail "FL" r)

/-- Result of the vertical matcher: an Altitude match or a Level match. -/
inductive VertG where
  | altitude (g : AltG)
  | level (g : LevelG)
deriving DecidableEq

/-- Airspace.__vertical_matcher: the patterns are tried in the insertion
order of the types_patterns dict, Altitude first, then Level, and
next(..., None) yields none when neither matches. -/
def verticalMatcher (s : String) : Option VertG :=
  match altMatch s with
  | some g => some (.altitude g)
  | none =>
    match levelMatch s with
    | some g => some (.level g)
    | none => none

/-- Altitude.height: int(self.data[1]). -/
def altitudeHeight (g : AltG) : Except PyErr Int := pyInt g.feetG

/-- Altitude.above_ground_level: self.data[2] == 'AGL'. -/
def altitudeAGL (g : AltG) : Bool := g.aglG = "AGL"

/-- Level.height: int(0 if self.data[1] == 'SFC' else self.data[2]); when
group 2 is None (as for the input "FL"), int(None) raises a TypeError. -/
def levelHeight (g : LevelG) : Except PyErr Int :=
  if g.tagG = "SFC" then .ok 0
  else
    match g.digitsG with
    | some d => pyInt d
    | none => .error .typeError

/-! ## Operating hours: eaip/hours.py

The tokenizer embeds the re.findall call of get_operating_hours_from_string.
Its pattern has nine capture groups, one per alternation branch:
(H24) | (Daylight).+ | (Summer) | (Winter) | day-selector | time-time |
open paren | close paren (the time branch carries two groups).  findall
returns, for each match, the 9-tuple of group texts, the groups of the
branches that did not participate being empty strings. -/

/-- The day abbreviation list of the scan loop; the day alternation of the
tokenizer pattern lists the same names in the same order. -/
def pyDays : List String := ["Mon", "Tue", "Wed", "Thu", "Fri", "Sat", "Sun", "PH"]

/-- The day separators of the tokenizer piece (?:-|, | & | and ), in
alternation order. -/
def daySeps : List String := ["-", ", ", " & ", " and "]

/-- Try each day name, in alternation order. -/
def dayName? (cs : List Char) : Option (List Char × List Char) :=
  pyDays.findSome? fun d => (litP d cs).map fun r => (d.data, r)

/-- Try each day separator, in alternation order. -/
def sepTok? (cs : List Char) : Option (List Char × List Char) :=
  daySeps.findSome? fun sp => (litP sp cs).map fun r => (sp.data, r)

/-- Greedy match of ((?:(?:Mon|...|PH)(?:-|, | & | and )?)+): each
iteration is one day name followed by an optional separator, the separator
preferred present, repeated as long as another day name follows. -/
def dayTokLoop : Nat → List Char → Option (List Char × List Char)
  | 0, _ => none
  | fuel + 1, cs =>
    match dayName? cs with
    | none => none
    | some (d, r1) =>
      let spr := match sepTok? r1 with
        | some (sp, r) => (sp, r)
        | none => (([] : List Char), r1)
      match dayTokLoop fuel spr.2 with
      | some (t, r3) => some (d ++ spr.1 ++ t, r3)
      | none => some (d ++ spr.1, spr.2)

/-- One time atom of the pattern (\d{4}|SS): four digits preferred, else
the literal SS. -/
def timeAtom? (cs : List Char) : Option (String × List Char) :=
  match takeDigits 4 cs with
  | some (d, r) => some (d, r)
  | none => (litP "SS" cs).map fun r => ("SS", r)

/-- Branch 1, (H24). -/
def hb1 (cs : List Char) : Option (List String × List Char) :=
  (litP "H24" cs).map fun r => (["H24", "", "", "", "", "", "", "", ""], r)

/-- Branch 2, (Daylight).+ : the literal then at least one non-newline
character, consumed greedily. -/
def hb2 (cs : List Char) : Option (List String × List Char) :=
  (litP "Daylight" cs).bind fun r =>
    let run := r.takeWhile reDot
    if run.length ≥ 1 then
      some (["", "Daylight", "", "", "", "", "", "", ""], r.drop run.length)
    else none

/-- Branch 3, (Summer). -/
def hb3 (cs : List Char) : Option (List String × List Char) :=
  (litP "Summer" cs).map fun r => (["", "", "Summer", "", "", "", "", "", ""], r)

/-- Branch 4, (Winter). -/
def hb4 (cs : List Char) : Option (List String × List Char) :=
  (litP "Winter" cs).map fun r => (["", "", "", "Winter", "", "", "", "", ""], r)

/-- Branch 5, the day-selector group. -/
def hb5 (cs : List Char) : Option (List String × List Char) :=
  (dayTokLoop (cs.length + 1) cs).map fun tr =>
    (["", "", "", "", tr.1.asString, "", "", "", ""], tr.2)

/-- Branch 6, (\d{4}|SS)-(\d{4}|SS), two groups in one match. -/
def hb6 (cs : List Char) : Option (List String × List Char) :=
  (timeAtom? cs).bind fun t1 =>
    (litP "-" t1.2).bind fun r =>
      (timeAtom? r).map fun t2 => (["", "", "", "", "", t1.1, t2.1, "", ""], t2.2)

/-- Branch 7, the literal open parenthesis. -/
def hb7 (cs : List Char) : Option (List String × List Char) :=
  (litP "(" cs).map fun r => (["", "", "", "", "", "", "", "(", ""], r)

/-- Branch 8, the literal close parenthesis. -/
def hb8 (cs : List Char) : Option (List String × List Char) :=
  (litP ")" cs).map fun r => (["", "", "", "", "", "", "", "", ")"], r)

/-- The full alternation, branches tried in pattern order. -/
def matchAlt (cs : List Char) : Option (List String × List Char) :=
  hb1 cs <|> hb2 cs <|> hb3 cs <|> hb4 cs <|> hb5 cs <|> hb6 cs <|> hb7 cs <|> hb8 cs

/-- The findall scan: at each position try the alternation; on a match emit
the group tuple and continue after it (every branch consumes at least one
character), otherwise advance one character. -/
def findallAux : Nat → List Char → List (List String)
  | 0, _ => []
  | _, [] => []
  | fuel + 1, c :: rest =>
    match matchAlt (c :: rest) with
    | some (g, r) => g :: findallAux fuel r
    | none => findallAux fuel rest

/-- re.findall of the operating-hours pattern over the whole input. -/
def findallHours (s : String) : List (List String) :=
  findallAux s.data.length s.data

/-- A day entry of the schedule: None, or a committed [start, end] pair. -/
abbrev DayEntry := Option (PyTime × PyTime)

/-- The dataclass OperatingWeek: one entry per day, public holidays last. -/
structure OperatingWeek where
  monday : DayEntry
  tuesday : DayEntry
  wednesday : DayEntry
  thursday : DayEntry
  friday : DayEntry
  saturday : DayEntry
  sunday : DayEntry
  holiday : DayEntry
deriving DecidableEq

/-- OperatingWeek(*args): the dataclass requires exactly its eight
positional fields; any other arity raises a TypeError. -/
def mkOperatingWeek (l : List DayEntry) : Except PyErr OperatingWeek :=
  match l with
  | [a, b, c, d, e, f, g, h] => .ok ⟨a, b, c, d, e, f, g, h⟩
  | _ => .error .typeError

/-- The OperatingHours object. -/
structure OperatingHours where
  hours : OperatingWeek
  summer : OperatingWeek
  is_24_hr : Bool
  is_daylight : Bool
deriving DecidableEq

/-- The full-day pair (datetime.time.min, datetime.time.max) used by the
24-hour branch of OperatingHours.__init__. -/
def fullDayEntry : DayEntry := some (timeMin, timeMax)

/-- OperatingHours.__init__: when is_24_hr the hours argument is replaced
by a list of 15 full-day pairs (as written in the source), then the weeks
are built from the slices [:8] and [8:16]. -/
def mkOperatingHours (args : List DayEntry) (is24 isDl : Bool) :
    Except PyErr OperatingHours := do
  let args := if is24 then List.replicate 15 fullDayEntry else args
  let h ← mkOperatingWeek (args.take 8)
  let sm ← mkOperatingWeek ((args.drop 8).take 8)
  pure ⟨h, sm, is24, isDl⟩

/-- list.index via findIdx?; a missing element raises a ValueError. -/
def pyIndex (l : List String) (x : String) : Except PyErr Nat :=
  match l.findIdx? (fun y => y = x) with
  | some i => .ok i
  | none => .error .valueError

/-- str.split('-'): split on every dash, keeping empty pieces. -/
def splitDash : List Char → List Char → List String
  | acc, [] => [acc.reverse.asString]
  | acc, '-' :: rest => acc.reverse.asString :: splitDash [] rest
  | acc, c :: rest => splitDash (c :: acc) rest

/-- re.split(r', | and | & ', s): scan left to right, cutting at the first
separator that matches, alternation in pattern order. -/
def reSplitAux : Nat → List Char → List Char → List String
  | 0, acc, cs => [(acc.reverse ++ cs).asString]
  | _ + 1, acc, [] => [acc.reverse.asString]
  | fuel + 1, acc, c :: rest =>
    match litP ", " (c :: rest) with
    | some r => acc.reverse.asString :: reSplitAux fuel [] r
    | none =>
      match litP " and " (c :: rest) with
      | some r => acc.reverse.asString :: reSplitAux fuel [] r
      | none =>
        match litP " & " (c :: rest) with
        | some r => acc.reverse.asString :: reSplitAux fuel [] r
        | none => reSplitAux fuel (c :: acc) rest

/-- re.split(r', | and | & ', s) over a string. -/
def pyReSplitDays (s : String) : List String := reSplitAux s.data.length [] s.data

/-- str.isdigit(): non-empty and every character a digit (inputs here are
ASCII). -/
def pyIsdigit (s : String) : Bool := !s.data.isEmpty && s.data.all Char.isDigit

/-- int() on an identifier already checked by isdigit. -/
def pyStrNat (s : String) : Nat := (toNatDigits? s).getD 0

/-- datetime.datetime.strptime(s, '%H%M').time(): at its only call site the
identifier is a \d{4} token, so the model reads exactly four digits; an
hour above 23 or a minute above 59 raises a ValueError. -/
def strptimeHM (s : String) : Except PyErr PyTime :=
  match s.data with
  | [a, b, c, d] =>
    if a.isDigit && b.isDigit && c.isDigit && d.isDigit then
      let hh := (a.toNat - 48) * 10 + (b.toNat - 48)
      let mm := (c.toNat - 48) * 10 + (d.toNat - 48)
      if hh ≤ 23 ∧ mm ≤ 59 then .ok ⟨hh, mm, 0, 0⟩ else .error .valueError
    else .error .valueError
  | _ => .error .valueError

/-- current_hours[current_hours.index(None)] = t: fill the first empty slot
of the pending pair; no empty slot raises a ValueError. -/
def fillFirstNone (cur : Option PyTime × Option PyTime) (t : PyTime) :
    Except PyErr (Option PyTime × Option PyTime) :=
  match cur with
  | (none, b) => .ok (some t, b)
  | (some a, none) => .ok (some a, some t)
  | (some _, some _) => .error .valueError

/-- The inner loop body over one piece of the re.split result: a dashed
piece looks both endpoints up in the day list, a plain day name becomes a
singleton range, anything else leaves the running day_range unchanged. -/
def dayItemRange (dr : Nat × Nat) (item : String) : Except PyErr (Nat × Nat) := do
  let parts := splitDash [] item.data
  let dr1 ←
    match parts with
    | p0 :: p1 :: _ => do
      let a ← pyIndex pyDays p0
      let b ← pyIndex pyDays p1
      pure (a, b)
    | _ => pure dr
  if pyDays.contains item then do
    let i ← pyIndex pyDays item
    pure (i, i)
  else
    pure dr1

/-- The day_range_list construction of the scan loop: the running day_range
is threaded through the pieces and its value after each piece is appended. -/
def buildDayRanges (dr0 : Nat × Nat) (items : List String) :
    Except PyErr ((Nat × Nat) × List (Nat × Nat)) :=
  items.foldlM
    (fun acc item => do
      let dr ← dayItemRange acc.1 item
      pure (dr, acc.2 ++ [dr]))
    (dr0, ([] : List (Nat × Nat)))

/-- Assign an entry to every day of an inclusive range, written with
Python range semantics: empty when the lower bound exceeds the upper. -/
def assignRange (wk : List DayEntry) (dr : Nat × Nat) (e : DayEntry) : List DayEntry :=
  (List.range (dr.2 + 1 - dr.1)).foldl (fun w i => w.set (dr.1 + i) e) wk

/-- The mutable state of the scan loop of get_operating_hours_from_string. -/
structure ScanSt where
  hours : List DayEntry
  summer : List DayEntry
  isSummer : Bool
  dayRange : Nat × Nat
  current : Option PyTime × Option PyTime
deriving DecidableEq

/-- The loop state before the first identifier: empty weeks, winter
section, default day range (0, 7), no pending times. -/
def initSt : ScanSt :=
  ⟨List.replicate 8 none, List.replicate 8 none, false, (0, 7), (none, none)⟩

/-- One iteration of the scan loop over a flattened findall entry: empty
identifiers are skipped; otherwise the day-range list is rebuilt from the
re.split pieces, the season flag is toggled, a digit token below 2400 fills
the pending pair, and a completed pair pops the head of the freshly built
day-range list and commits to the summer or regular week. -/
def scanStep (st : ScanSt) (identifier : String) : Except PyErr ScanSt :=
  if identifier = "" then .ok st
  else do
    let items := pyReSplitDays identifier
    let built ← buildDayRanges st.dayRange items
    let isSummer :=
      if identifier = "(" ∨ identifier = "Summer" then true
      else if identifier = ")" ∨ identifier = "Winter" then false
      else st.isSummer
    let cur ←
      if pyIsdigit identifier ∧ pyStrNat identifier < 2400 then do
        let t ← strptimeHM identifier
        fillFirstNone st.current t
      else pure st.current
    match cur with
    | (some a, some b) =>
      match built.2 with
      | [] => .error .indexError
      | d0 :: _ =>
        if isSummer then
          .ok ⟨st.hours, assignRange st.summer d0 (some (a, b)), isSummer, d0, (none, none)⟩
        else
          .ok ⟨assignRange st.hours d0 (some (a, b)), st.summer, isSummer, d0, (none, none)⟩
    | _ => .ok ⟨st.hours, st.summer, isSummer, built.1, cur⟩

/-- get_operating_hours_from_string: flatten the findall tuples; fewer than
two entries fall off the end of the function, returning None; otherwise the
first two entries decide the flags, the rest drive the scan loop, and the
OperatingHours constructor receives the sixteen day entries. -/
def getOperatingHoursFromString (s : String) : Except PyErr (Option OperatingHours) :=
  let flat := (findallHours s).flatten
  if flat.length ≥ 2 then do
    let is24 := flat.headD "" = "H24"
    let isDl := (flat.drop 1).headD "" = "Daylight"
    let fin ← (flat.drop 2).foldlM scanStep initSt
    let oh ← mkOperatingHours (fin.hours ++ fin.summer) is24 isDl
    pure (some oh)
  else
    pure none

/-! ## Lateral limits: Airspace.lateral, lateral_circle, lateral_lines

The boundary descriptor text handled here is self.data[0].split('\n', 1)[1]
of the Python source.  The Line, Arc and Parallel patterns share an
identical deterministic prefix, a coordinate pair of fixed-width groups,
embedded once as parseCoordPair. -/

/-- The eight coordinate groups
(\d{2})(\d{2})(\d{2})([NS]) (\d{3})(\d{2})(\d{2})([EW]) of the shape
patterns. -/
structure CoordG where
  latD : String
  latM : String
  latS : String
  latH : Char
  lonD : String
  lonM : String
  lonS : String
  lonH : Char
deriving DecidableEq

/-- The shared deterministic prefix of the Line, Arc and Parallel patterns:
degrees, minutes and seconds groups, a hemisphere letter, a space, and the
longitude groups.  Every group has a fixed width, so no backtracking can
occur inside this prefix. -/
def parseCoordPair (cs : List Char) : Option (CoordG × List Char) := do
  let (latD, r) ← takeDigits 2 cs
  let (latM, r) ← takeDigits 2 r
  let (latS, r) ← takeDigits 2 r
  let (latH, r) ← charOf ['N', 'S'] r
  let r ← litP " " r
  let (lonD, r) ← takeDigits 3 r
  let (lonM, r) ← takeDigits 2 r
  let (lonS, r) ← takeDigits 2 r
  let (lonH, r) ← charOf ['E', 'W'] r
  pure (⟨latD, latM, latS, latH, lonD, lonM, lonS, lonH⟩, r)

/-- The Line pattern of Airspace.lateral_lines: the coordinate pair and
nothing else before the dollar anchor. -/
def lineMatch (d : String) : Option CoordG :=
  match parseCoordPair d.data with
  | some (g, r) => if reDollar r then some g else none
  | none => none

/-- Captured groups of the Arc pattern: start coordinates (groups 1-8),
direction (group 9), radius (group 10), centre coordinates (groups 11-18)
and the coordinates after "to" (groups 19-26). -/
structure ArcG where
  startG : CoordG
  dirG : String
  radiusG : String
  centreG : CoordG
  toG : CoordG
deriving DecidableEq

/-- Tail of the Arc pattern after the coordinate pair: the literal
" thence ", the direction alternation (clockwise first), a space, then
.+arc.+ with a space, the radius capture, " NM centred on ", the centre
coordinates, " to ", the final coordinates and the dollar anchor. -/
def arcTail (g1 : CoordG) (r : List Char) : Option ArcG :=
  (litP " thence " r).bind fun r =>
  (((litP "clockwise" r).map fun r2 => ("clockwise", r2)) <|>
   ((litP "anti-clockwise" r).map fun r2 => ("anti-clockwise", r2))).bind fun dir =>
  (litP " " dir.2).bind fun r =>
  dotPlusP r fun r =>
  (litP "arc" r).bind fun r =>
  dotPlusP r fun r =>
  (litP " " r).bind fun r =>
  numCapP r fun rad r =>
  (litP " NM centred on " r).bind fun r =>
  (parseCoordPair r).bind fun gc =>
  (litP " to " gc.2).bind fun r =>
  (parseCoordPair r).bind fun gt =>
  if reDollar gt.2 then some (ArcG.mk g1 dir.1 rad gc.1 gt.1) else none

/-- The Arc pattern of Airspace.lateral_lines. -/
def arcMatch (d : String) : Option ArcG :=
  match parseCoordPair d.data with
  | some (g, r) => arcTail g r
  | none => none

/-- Tail of the Parallel pattern after the coordinate pair:
.+line of latitude.+ up to the dollar anchor; nothing further is captured. -/
def parTail (r : List Char) : Option Unit :=
  dotPlusP r fun r =>
  (litP "line of latitude" r).bind fun r =>
  dotPlusP r fun r =>
  if reDollar r then some () else none

/-- The Parallel pattern of Airspace.lateral_lines. -/
def parMatch (d : String) : Option CoordG :=
  match parseCoordPair d.data with
  | some (g, r) => (parTail r).map fun _ => g
  | none => none

/-- A matched shape with its captured groups. -/
inductive SegKind where
  | line (g : CoordG)
  | arc (g : ArcG)
  | parallel (g : CoordG)
deriving DecidableEq

/-- The keys of the types_patterns dict, in insertion order: Line, Arc,
Parallel. -/
inductive PatKind where
  | line
  | arc
  | parallel
deriving DecidableEq

/-- p.search(d) for one entry of the types_patterns dict. -/
def patSearch : PatKind → String → Option SegKind
  | .line, d => (lineMatch d).map .line
  | .arc, d => (arcMatch d).map .arc
  | .parallel, d => (parMatch d).map .parallel

/-- The iteration order of types_patterns.items(). -/
def typesPatterns : List PatKind := [.line, .arc, .parallel]

/-- A constructed geometry object: the index passed by the comprehension
and the matched groups. -/
structure Seg where
  index : Nat
  kind : SegKind
deriving DecidableEq

/-- The per-descriptor expression of Airspace.lateral_lines:
next((geog(i, match, self) for i, (geog, match) in enumerate((t,
p.search(d)) for t, p in types_patterns.items() if p.search(d))), None).
The enumerate runs over the matching patterns of this one descriptor, so
the index taken by next is the position among those matches, and next
always takes the first. -/
def segOfDescriptor (d : String) : Option Seg :=
  (((typesPatterns.filterMap fun t => (patSearch t d).map fun m => (t, m)).enum.map
    fun im => Seg.mk im.1 im.2.2).head?)

/-- The outer comprehension of Airspace.lateral_lines: descriptors whose
expression produced None are filtered out. -/
def lateralDecompose (ds : List String) : List Seg :=
  ds.filterMap segOfDescriptor

/-- str.split(' - ') on the boundary description. -/
def splitDelimAux : Nat → List Char → List Char → List String
  | 0, acc, cs => [(acc.reverse ++ cs).asString]
  | _ + 1, acc, [] => [acc.reverse.asString]
  | fuel + 1, acc, c :: rest =>
    match litP " - " (c :: rest) with
    | some r => acc.reverse.asString :: splitDelimAux fuel [] r
    | none => splitDelimAux fuel (c :: acc) rest

/-- The descriptor list: the boundary description split on " - ". -/
def pySplitDelim (s : String) : List String := splitDelimAux s.data.length [] s.data

/-- Airspace.lateral_lines over the boundary description. -/
def airspaceLateralLines (descriptor : String) : List Seg :=
  lateralDecompose (pySplitDelim descriptor)

/-- Captured groups of the circle pattern of Airspace.lateral_circle:
radius (group 1), centre coordinates (groups 2-9) and the optional
annotation digits (groups 10 and 11, None when the optional part is
absent). -/
structure CircleG where
  radiusG : String
  centreG : CoordG
  annotXG : Option String
  annotYG : Option String
deriving DecidableEq

/-- The optional trailing annotation (?: .+ \((\d+)\/(\d+)\))? of the
circle pattern, preferred present. -/
def circAnnot (r : List Char) (k : Option String → Option String → List Char → Option α) :
    Option α :=
  ((litP " " r).bind fun r =>
   dotPlusP r fun r =>
   (litP " (" r).bind fun r =>
   (descRun (r.takeWhile Char.isDigit).length).findSome? fun n =>
     (litP "/" (r.drop n)).bind fun r2 =>
     (descRun (r2.takeWhile Char.isDigit).length).findSome? fun m =>
       (litP ")" (r2.drop m)).bind fun r3 =>
         k (some ((r.take n).asString)) (some ((r2.take m).asString)) r3) <|>
  k none none r

/-- The whole-description circle pattern of Airspace.lateral_circle,
compiled from r'^.+ circle.+(\d+(?:\.\d+)?) NM .+ centred .+(coords)
(?: .+ \((\d+)\/(\d+)\))?.*$'; re.search with a leading caret anchors the
match at the start of the text. -/
def circleSearch (s : String) : Option CircleG :=
  dotPlusP s.data fun r =>
  (litP " circle" r).bind fun r =>
  dotPlusP r fun r =>
  numCapP r fun rad r =>
  (litP " NM " r).bind fun r =>
  dotPlusP r fun r =>
  (litP " centred " r).bind fun r =>
  dotPlusP r fun r =>
  (parseCoordPair r).bind fun gc =>
  circAnnot gc.2 fun ax ay r =>
  dotStarP r fun r =>
  if reDollar r then some (CircleG.mk rad gc.1 ax ay) else none

/-- The result of Airspace.lateral: the Circle when lateral_circle matched
(a Circle object is always truthy), else the Line list. -/
inductive LateralResult where
  | circle (m : CircleG)
  | segs (l : List Seg)
deriving DecidableEq

/-- Airspace.lateral: self.lateral_circle if self.lateral_circle else
self.lateral_lines, over the boundary description text. -/
def airspaceLateral (descriptor : String) : LateralResult :=
  match circleSearch descriptor with
  | some m => .circle m
  | none => .segs (airspaceLateralLines descriptor)

/-- geopy Point.parse_degrees on the captured groups: degrees + minutes/60
+ seconds/3600, negated for a southern or western hemisphere letter. -/
def parseDegrees (d m s : String) (hemi : Char) : Option ℚ := do
  let dn ← toNatDigits? d
  let mn ← toNatDigits? m
  let sn ← toNatDigits? s
  let v : ℚ := (dn : ℚ) + (mn : ℚ) / 60 + (sn : ℚ) / 3600
  pure (if hemi = 'S' ∨ hemi = 'W' then -v else v)

/-- Decimal latitude and longitude of a coordinate group. -/
def coordToRat (g : CoordG) : Option (ℚ × ℚ) := do
  let lat ← parseDegrees g.latD g.latM g.latS g.latH
  let lon ← parseDegrees g.lonD g.lonM g.lonS g.lonH
  pure (lat, lon)

/-- The coordinate groups 1-8 of any matched shape (an Arc stores them as
its start). -/
def SegKind.coordG : SegKind → CoordG
  | .line g => g
  | .arc g => g.startG
  | .parallel g => g

/-- Line.start (inherited by Arc and Parallel): the decimal coordinates of
groups 1-8. -/
def Seg.start (s : Seg) : Option (ℚ × ℚ) := coordToRat s.kind.coordG

/-- Line.end: self.airspace.lateral_lines[self.index + 1].start; an index
past the end of the list raises an IndexError. -/
def Seg.end' (lines : List Seg) (s : Seg) : Except PyErr (Option (ℚ × ℚ)) :=
  match lines.get? (s.index + 1) with
  | some nxt => .ok nxt.start
  | none => .error .indexError

/-- str.split('.') used to read a captured decimal number. -/
def splitDot : List Char → List Char → List String
  | acc, [] => [acc.reverse.asString]
  | acc, '.' :: rest => acc.reverse.asString :: splitDot [] rest
  | acc, c :: rest => splitDot (c :: acc) rest

/-- Python float() on a radius capture, which the pattern restricts to
digits with an optional fractional part; the value is kept exact as a
rational. -/
def pyFloat (s : String) : Option ℚ :=
  match splitDot [] s.data with
  | [i] => (toNatDigits? i).map fun n => (n : ℚ)
  | [i, f] => do
    let n ← toNatDigits? i
    let fd ← toNatDigits? f
    pure ((n : ℚ) + (fd : ℚ) / (10 : ℚ) ^ f.length)
  | _ => none

/-- Circle.radius: float(self.data[1]). -/
def circleRadius (m : CircleG) : Option ℚ := pyFloat m.radiusG

/-- Circle.centre: Point.parse_degrees over groups 2-9. -/
def circleCentre (m : CircleG) : Option (ℚ × ℚ) := coordToRat m.centreG

/-- Dispatch following the words of the specification: the shape patterns
tried in the priority order Arc, then Line, then Parallel, first match
taken.  This definition exists only to be compared with segOfDescriptor,
which follows the source's dict insertion order Line, Arc, Parallel. -/
def specOrderMatch (d : String) : Option SegKind :=
  match arcMatch d with
  | some g => some (.arc g)
  | none =>
    match lineMatch d with
    | some g => some (.line g)
    | none => (parMatch d).map .parallel

/-- A time of day with zero seconds, as produced by strptime('%H%M'). -/
def mkT (h m : Nat) : PyTime := ⟨h, m, 0, 0⟩

/-- A week with no recorded hours. -/
def emptyWeek : OperatingWeek := ⟨none, none, none, none, none, none, none, none⟩

/-- Boundary description made of three plain coordinate descriptors. -/
def c2Boundary : String := "510000N 0010000E - 520000N 0020000E - 530000N 0030000E"

/-- Boundary description made of a single coordinate descriptor. -/
def c2Single : String := "510000N 0010000E"

/-- The segment decomposed from the first descriptor of c2Boundary. -/
def c2SegA : Seg := ⟨0, .line ⟨"51", "00", "00", 'N', "001", "00", "00", 'E'⟩⟩

/-- The segment decomposed from the second descriptor of c2Boundary. -/
def c2SegB : Seg := ⟨0, .line ⟨"52", "00", "00", 'N', "002", "00", "00", 'E'⟩⟩

/-- The segment decomposed from the third descriptor of c2Boundary. -/
def c2SegC : Seg := ⟨0, .line ⟨"53", "00", "00", 'N', "003", "00", "00", 'E'⟩⟩

/-- A whole-description circle text that also contains a " - " delimiter. -/
def c6Text : String := "A circle, 2 NM radius - centred on 510640N 0000153W"

/-- The groups that the circle pattern captures from c6Text. -/
def c6Match : CircleG := ⟨"2", ⟨"51", "06", "40", 'N', "000", "01", "53", 'W'⟩, none, none⟩

/-! ## Theorems -/

/-- C1: the claim expects every input containing the token "H24" to give a
full-day 24-hour schedule; instead the OperatingHours constructor replaces
the day entries by a list of 15 (not 16) full-day pairs, so the summer week
receives 7 of its 8 required fields and construction raises a TypeError.
The second conjunct documents that "H24" is nevertheless recognised as the
first token, so the 24-hour branch is indeed taken. -/
theorem c1_h24_raises :
    getOperatingHoursFromString "H24" = .error .typeError ∧
    (findallHours "H24").flatten.headD "" = "H24" := by decide

/-- Helper: evaluation of Point.parse_degrees once the three groups
convert. -/
theorem parseDegrees_eval (d m s : String) (hemi : Char) (dv mv sv : Nat)
    (hd : toNatDigits? d = some dv) (hm : toNatDigits? m = some mv)
    (hs : toNatDigits? s = some sv) :
    parseDegrees d m s hemi =
      some (if hemi = 'S' ∨ hemi = 'W' then -((dv : ℚ) + (mv : ℚ) / 60 + (sv : ℚ) / 3600)
        else (dv : ℚ) + (mv : ℚ) / 60 + (sv : ℚ) / 3600) := by
  unfold parseDegrees
  rw [hd, hm, hs]
  rfl

/-- C2: the claim expects segment k's end to be segment k+1's start with a
wrap-around for the last segment; instead every decomposed segment carries
index 0 (the enumerate of lateral_lines runs over the pattern candidates of
one descriptor, and next always takes its first element), so every
segment's end is segment 1's start, the last segment does not wrap to the
first, and a single-segment boundary raises an IndexError when its end is
read. -/
theorem c2_end_not_chained :
    (airspaceLateralLines c2Boundary).map Seg.start =
      [some ((51 : ℚ), (1 : ℚ)), some ((52 : ℚ), (2 : ℚ)), some ((53 : ℚ), (3 : ℚ))] ∧
    (airspaceLateralLines c2Boundary).map (Seg.end' (airspaceLateralLines c2Boundary)) =
      [.ok (some ((52 : ℚ), (2 : ℚ))), .ok (some ((52 : ℚ), (2 : ℚ))),
        .ok (some ((52 : ℚ), (2 : ℚ)))] ∧
    (some ((52 : ℚ), (2 : ℚ)) : Option (ℚ × ℚ)) ≠ some ((53 : ℚ), (3 : ℚ)) ∧
    (some ((52 : ℚ), (2 : ℚ)) : Option (ℚ × ℚ)) ≠ some ((51 : ℚ), (1 : ℚ)) ∧
    (airspaceLateralLines c2Single).map (Seg.end' (airspaceLateralLines c2Single)) =
      [.error .indexError] := by
  have hL : airspaceLateralLines c2Boundary = [c2SegA, c2SegB, c2SegC] := by decide
  have hS : airspaceLateralLines c2Single = [c2SegA] := by decide
  have e1 : Seg.start c2SegA = some ((51 : ℚ), (1 : ℚ)) := by
    show coordToRat ⟨"51", "00", "00", 'N', "001", "00", "00", 'E'⟩ = _
    unfold coordToRat
    rw [parseDegrees_eval "51" "00" "00" 'N' 51 0 0 (by decide) (by decide) (by decide),
      parseDegrees_eval "001" "00" "00" 'E' 1 0 0 (by decide) (by decide) (by decide),
      if_neg (by decide), if_neg (by decide)]
    norm_num
  have e2 : Seg.start c2SegB = some ((52 : ℚ), (2 : ℚ)) := by
    show coordToRat ⟨"52", "00", "00", 'N', "002", "00", "00", 'E'⟩ = _
    unfold coordToRat
    rw [parseDegrees_eval "52" "00" "00" 'N' 52 0 0 (by decide) (by decide) (by decide),
      parseDegrees_eval "002" "00" "00" 'E' 2 0 0 (by decide) (by decide) (by decide),
      if_neg (by decide), if_neg (by decide)]
    norm_num
  have e3 : Seg.start c2SegC = some ((53 : ℚ), (3 : ℚ)) := by
    show coordToRat ⟨"53", "00", "00", 'N', "003", "00", "00", 'E'⟩ = _
    unfold coordToRat
    rw [parseDegrees_eval "53" "00" "00" 'N' 53 0 0 (by decide) (by decide) (by decide),
      parseDegrees_eval "003" "00" "00" 'E' 3 0 0 (by decide) (by decide) (by decide),
      if_neg (by decide), if_neg (by decide)]
    norm_num
  refine ⟨?_, ?_, ?_, ?_, ?_⟩
  · rw [hL]
    simp only [List.map]
    rw [e1, e2, e3]
  · rw [hL]
    simp only [List.map]
    rw [show Seg.end' [c2SegA, c2SegB, c2SegC] c2SegA = .ok (Seg.start c2SegB) from rfl,
      show Seg.end' [c2SegA, c2SegB, c2SegC] c2SegB = .ok (Seg.start c2SegB) from rfl,
      show Seg.end' [c2SegA, c2SegB, c2SegC] c2SegC = .ok (Seg.start c2SegB) from rfl, e2]
  · intro hEq
    rw [Option.some.injEq, Prod.mk.injEq] at hEq
    exact absurd hEq.1 (by norm_num)
  · intro hEq
    rw [Option.some.injEq, Prod.mk.injEq] at hEq
    exact absurd hEq.1 (by norm_num)
  · rw [hS]
    rfl

/-- C3, counterexample: on "Mon-Fri 0800-1630 (Summer) 0700-1600 (Winter)"
the claim expects the seasonal week to hold 08:00-16:30 on Monday; the
parse succeeds and the seasonal Monday is empty. -/
theorem c3_counterexample :
    (getOperatingHoursFromString "Mon-Fri 0800-1630 (Summer) 0700-1600 (Winter)").map
      (Option.map fun oh => oh.summer.monday) = .ok (some none) := by decide

/-- C3, amended: the input yields a regular week holding 07:00-16:00 on
Monday to Friday and nothing else, and an entirely empty seasonal week:
the 08:00-16:30 pair completes before any season marker and commits to the
regular week, the ")" of "(Summer)" resets the season flag before the
07:00-16:00 pair completes, so that pair overwrites the regular week. -/
theorem c3_amended :
    getOperatingHoursFromString "Mon-Fri 0800-1630 (Summer) 0700-1600 (Winter)" =
      .ok (some ⟨⟨some (mkT 7 0, mkT 16 0), some (mkT 7 0, mkT 16 0),
        some (mkT 7 0, mkT 16 0), some (mkT 7 0, mkT 16 0), some (mkT 7 0, mkT 16 0),
        none, none, none⟩, emptyWeek, false, false⟩) := by decide

/-- C4, counterexample: on "Mon-Fri, Sat 0800-1600" the claim expects
Monday to receive 08:00-16:00; the parse succeeds and Monday is empty. -/
theorem c4_counterexample :
    (getOperatingHoursFromString "Mon-Fri, Sat 0800-1600").map
      (Option.map fun oh => oh.hours.monday) = .ok (some none) := by decide

/-- C4, amended: the pending day-range list is rebuilt from scratch for
every token out of the single most recently stored day range, so only the
last sub-range declared in a day token ever receives hours; the input
assigns 08:00-16:00 to Saturday only and Monday to Friday receive
nothing. -/
theorem c4_amended :
    getOperatingHoursFromString "Mon-Fri, Sat 0800-1600" =
      .ok (some ⟨⟨none, none, none, none, none, some (mkT 8 0, mkT 16 0), none, none⟩,
        emptyWeek, false, false⟩) := by decide

/-- Helper: the Arc tail cannot start at the end of the input, since it
requires the literal " thence ". -/
theorem arcTail_of_dollar (g : CoordG) (r : List Char) (h : reDollar r) :
    arcTail g r = none := by
  cases h with
  | inl h =>
    subst h
    have h1 : litP " thence " ([] : List Char) = none := by decide
    unfold arcTail
    rw [h1]
    rfl
  | inr h =>
    subst h
    have h1 : litP " thence " (['\n'] : List Char) = none := by decide
    unfold arcTail
    rw [h1]
    rfl

/-- Helper: the Line and Arc patterns are disjoint: a Line match consumes
the whole descriptor up to the dollar anchor, while an Arc match needs
" thence " after the shared coordinate prefix. -/
theorem arcMatch_eq_none_of_line (d : String) (g : CoordG) (h : lineMatch d = some g) :
    arcMatch d = none := by
  unfold lineMatch at h
  unfold arcMatch
  cases hc : parseCoordPair d.data with
  | none => rfl
  | some pr =>
    obtain ⟨g', r⟩ := pr
    rw [hc] at h
    dsimp only at h ⊢
    by_cases hd : reDollar r
    · exact arcTail_of_dollar g' r hd
    · rw [if_neg hd] at h; cases h

/-- Helper: the per-descriptor dispatch of the source (patterns tried in
dict order Line, Arc, Parallel, index always 0) agrees with the
specification's priority order Arc, Line, Parallel. -/
theorem segOfDescriptor_eq_spec (d : String) :
    segOfDescriptor d = (specOrderMatch d).map fun k => Seg.mk 0 k := by
  unfold segOfDescriptor specOrderMatch
  cases hl : lineMatch d with
  | some g =>
    have ha := arcMatch_eq_none_of_line d g hl
    simp [typesPatterns, patSearch, hl, ha]
  | none =>
    cases ha : arcMatch d with
    | some g => simp [typesPatterns, patSearch, hl, ha]
    | none =>
      cases hp : parMatch d with
      | some g => simp [typesPatterns, patSearch, hl, ha, hp]
      | none => simp [typesPatterns, patSearch, hl, ha, hp]

/-- C5: the decomposition maps every descriptor to the first shape pattern
that matches it in the priority order Arc, Line, Parallel (the source tries
Line first, but its fully anchored pattern is disjoint from Arc's, so the
orders agree on every descriptor), and a descriptor matching none of the
three patterns is omitted from the resulting sequence. -/
theorem c5_priority_dispatch (ds : List String) :
    lateralDecompose ds = ds.filterMap fun d => (specOrderMatch d).map fun k => Seg.mk 0 k := by
  unfold lateralDecompose
  induction ds with
  | nil => rfl
  | cons a t ih =>
    rw [List.filterMap_cons, List.filterMap_cons, segOfDescriptor_eq_spec a, ih]

/-- Witness for C5 at a concrete descriptor list: a line descriptor, an
arc descriptor, a parallel descriptor and a prose descriptor; the prose
descriptor is dropped and the others take their first matching shape. -/
theorem c5_priority_witness :
    lateralDecompose ["510000N 0010000E", "some prose with no geometry"] =
      (["510000N 0010000E", "some prose with no geometry"].filterMap fun d =>
        (specOrderMatch d).map fun k => Seg.mk 0 k) ∧
    lateralDecompose ["510000N 0010000E", "some prose with no geometry"] =
      [⟨0, .line ⟨"51", "00", "00", 'N', "001", "00", "00", 'E'⟩⟩] :=
  ⟨c5_priority_dispatch ["510000N 0010000E", "some prose with no geometry"], by decide⟩

/-- C6: whenever the whole-description circle pattern matches, lateral
returns that Circle and never decomposes the text into segments. -/
theorem c6_circle_short_circuit (d : String) (m : CircleG) (h : circleSearch d = some m) :
    airspaceLateral d = .circle m := by
  unfold airspaceLateral
  rw [h]

/-- Witness for C6 on a circle text that also contains a " - " delimiter:
the circle pattern matches, lateral returns the circle, and the radius and
centre accessors read 2 NM and 51°06'40"N 000°01'53"W from the captured
groups. -/
theorem c6_circle_witness :
    circleSearch c6Text = some c6Match ∧
    airspaceLateral c6Text = .circle c6Match ∧
    (pySplitDelim c6Text).length = 2 ∧
    circleRadius c6Match = some 2 ∧
    circleCentre c6Match = some ((460 : ℚ) / 9, -((113 : ℚ) / 3600)) := by
  refine ⟨by decide, c6_circle_short_circuit c6Text c6Match (by decide), by decide, ?_, ?_⟩
  · show pyFloat "2" = some 2
    unfold pyFloat
    rw [show splitDot [] ("2".data) = ["2"] from by decide]
    show (toNatDigits? "2").map (fun n => (n : ℚ)) = some 2
    rw [show toNatDigits? "2" = some 2 from by decide]
    norm_num
  · show coordToRat ⟨"51", "06", "40", 'N', "000", "01", "53", 'W'⟩ = _
    unfold coordToRat
    rw [parseDegrees_eval "51" "06" "40" 'N' 51 6 40 (by decide) (by decide) (by decide),
      parseDegrees_eval "000" "01" "53" 'W' 0 1 53 (by decide) (by decide) (by decide),
      if_neg (by decide), if_pos (by decide)]
    norm_num

/-- Helper: a run of digits followed by the AGL suffix is taken whole by
takeWhile. -/
theorem takeWhile_digits_of_all (l : List Char) (h : l.all Char.isDigit = true) :
    (l ++ " FT AGL".data).takeWhile Char.isDigit = l := by
  induction l with
  | nil => decide
  | cons a t ih =>
    rw [List.all_cons, Bool.and_eq_true] at h
    simp [List.takeWhile_cons, h.1, ih h.2]

/-- Helper: the Altitude tail accepts exactly the AGL suffix. -/
theorem altTail_agl (ds : String) : altTail ds (" FT AGL".data) = some ⟨ds, "AGL"⟩ := rfl

/-- Helper: the Altitude pattern matches any digit run followed by
" FT AGL", capturing the digits and the AGL marker. -/
theorem altMatch_digits_agl (l : List Char) (hne : l ≠ []) (h : l.all Char.isDigit = true) :
    altMatch ⟨l ++ " FT AGL".data⟩ = some ⟨⟨l⟩, "AGL"⟩ := by
  unfold altMatch
  dsimp only
  rw [takeWhile_digits_of_all l h]
  cases l with
  | nil => exact absurd rfl hne
  | cons a t =>
    rw [show descRun ((a :: t).length) = (a :: t).length :: descRun t.length from rfl,
      List.findSome?_cons]
    have hf : altTail (((a :: t) ++ " FT AGL".data).take ((a :: t).length)).asString
        (((a :: t) ++ " FT AGL".data).drop ((a :: t).length)) = some ⟨⟨a :: t⟩, "AGL"⟩ := by
      rw [List.take_left, List.drop_left]
      exact altTail_agl ⟨a :: t⟩
    rw [hf]

/-- C7: the vertical classifier sends "15000 FT ALT" to an Altitude of
15000 feet not above ground level, any digit run followed by " FT AGL" to
an Altitude above ground level, "SFC" to a Level of height 0, "FL195" to a
Level of height 195, and any text matching neither pattern to none; the
Altitude pattern is tried before the Level pattern (the last conjunct shows
that the fallthrough to Level happens only once Altitude has failed). -/
theorem c7_vertical_classifier :
    verticalMatcher "15000 FT ALT" = some (.altitude ⟨"15000", "ALT"⟩) ∧
    altitudeHeight ⟨"15000", "ALT"⟩ = .ok 15000 ∧
    altitudeAGL ⟨"15000", "ALT"⟩ = false ∧
    (∀ l : List Char, l ≠ [] → l.all Char.isDigit = true →
      verticalMatcher ⟨l ++ " FT AGL".data⟩ = some (.altitude ⟨⟨l⟩, "AGL"⟩) ∧
      altitudeAGL ⟨⟨l⟩, "AGL"⟩ = true) ∧
    verticalMatcher "SFC" = some (.level ⟨"SFC", none⟩) ∧
    levelHeight ⟨"SFC", none⟩ = .ok 0 ∧
    verticalMatcher "FL195" = some (.level ⟨"FL", some "195"⟩) ∧
    levelHeight ⟨"FL", some "195"⟩ = .ok 195 ∧
    (∀ t : String, altMatch t = none → levelMatch t = none → verticalMatcher t = none) := by
  refine ⟨by decide, by decide, by decide, ?_, by decide, by decide, by decide, by decide, ?_⟩
  · intro l hne hall
    constructor
    · unfold verticalMatcher
      rw [altMatch_digits_agl l hne hall]
    · rfl
  · intro t h1 h2
    unfold verticalMatcher
    rw [h1, h2]

/-- Witness for C7: the universal AGL clause at the digit run 500, and the
no-match clause at a text neither pattern accepts. -/
theorem c7_vertical_witness :
    verticalMatcher "500 FT AGL" = some (.altitude ⟨"500", "AGL"⟩) ∧
    altitudeAGL ⟨"500", "AGL"⟩ = true ∧
    verticalMatcher "no limit given" = none := by
  have h := c7_vertical_classifier
  have h4 := h.2.2.2.1 ("500".data) (by decide) (by decide)
  exact ⟨h4.1, h4.2, h.2.2.2.2.2.2.2.2 "no limit given" (by decide) (by decide)⟩

/-- C8: "Mon-Fri 0800-1630" yields 08:00-16:30 on Monday to Friday of the
regular week, nothing on Saturday, Sunday and public holidays, and an
entirely empty seasonal week. -/
theorem c8_monfri_schedule :
    getOperatingHoursFromString "Mon-Fri 0800-1630" =
      .ok (some ⟨⟨some (mkT 8 0, mkT 16 30), some (mkT 8 0, mkT 16 30),
        some (mkT 8 0, mkT 16 30), some (mkT 8 0, mkT 16 30), some (mkT 8 0, mkT 16 30),
        none, none, none⟩, emptyWeek, false, false⟩) := by decide

/-- C9: when the tokenizer recognises no token the function falls off the
end of its body and returns None without raising. -/
theorem c9_no_tokens_returns_none (s : String) (h : findallHours s = []) :
    getOperatingHoursFromString s = .ok none := by
  simp only [getOperatingHoursFromString, h]
  rfl

/-- Witness for C9 at an input in which no token is recognised. -/
theorem c9_no_tokens_witness :
    findallHours "no schedule here" = [] ∧
    getOperatingHoursFromString "no schedule here" = .ok none :=
  ⟨by decide, c9_no_tokens_returns_none "no schedule here" (by decide)⟩

/-- C10: on the input "FL" the Level pattern matches with an absent digit
group, the classifier commits to a Level, and the height accessor raises a
TypeError (int of None) instead of returning a number or the no-limit
result. -/
theorem c10_fl_level_crash :
    verticalMatcher "FL" = some (.level ⟨"FL", none⟩) ∧
    levelHeight ⟨"FL", none⟩ = .error .typeError := by decide

end EAIP
